import Mathlib

/-!
# Verification of the data-integrator monitoring engine

Shallow embedding of the monitoring/escalation core of the repository:

* the PostgreSQL generated columns and trigger functions
  (`backend/migrations/versions/001_create_base_tables.py`,
  `backend/migrations/versions/002_create_triggers_and_functions.py`);
* the DynamoDB data-model layer (`src/lib/models.py`);
* the monitor sweep (`src/functions/monitor_patients/handler.py`);
* the WebSocket broadcast (`src/utils/websocket.py`);
* the configuration validation (`src/utils/config.py`).

Timestamps are modelled as rational numbers of seconds; hour arithmetic is
exact rational arithmetic, matching PostgreSQL `EXTRACT(EPOCH ...)/3600` on
`numeric` and Python float division (the claims under audit do not depend on
float rounding).
-/

namespace DataIntegrator

/-- A point in time, in seconds (models SQL TIMESTAMP / Python datetime). -/
abbrev Timestamp := ℚ

/-- Hours elapsed between `now` and `t`: `(now - t)` in seconds divided by 3600.
Models `EXTRACT(EPOCH FROM (NOW() - last_test_date))/3600` and Python
`(datetime.now() - last_test).total_seconds() / 3600`. -/
def hoursBetween (now t : Timestamp) : ℚ := (now - t) / 3600

/-- PostgreSQL cast of a `numeric` to `INTEGER`: rounds to the nearest
integer, halves away from zero. -/
def pgRoundToInt (q : ℚ) : ℤ := if 0 ≤ q then round q else -(round (-q))

/-- Generated column `admissions.hours_since_test INTEGER`
(001_create_base_tables.py): `EXTRACT(EPOCH FROM (NOW() - last_test_date))/3600`
cast to INTEGER; NULL when `last_test_date` is NULL. -/
def sqlHoursSinceTest (last_test_date : Option Timestamp) (now : Timestamp) : Option ℤ :=
  last_test_date.map (fun t => pgRoundToInt (hoursBetween now t))

/-- Generated column `admissions.needs_attention BOOLEAN`
(001_create_base_tables.py): `status = 'Active' AND (last_test_date IS NULL OR
EXTRACT(EPOCH FROM (NOW() - last_test_date))/3600 > 48)`.
Note the comparison is strict (`> 48`). -/
def sqlNeedsAttention (status : String) (last_test_date : Option Timestamp)
    (now : Timestamp) : Bool :=
  status == "Active" &&
    (match last_test_date with
     | none => true
     | some t => decide (hoursBetween now t > 48))

/-- `Admission.needs_attention` from `src/lib/models.py`: returns `False`
unless status is `'Active'`; `True` when `last_test_date` is null; otherwise
`hours >= 48` (non-strict). -/
def pyNeedsAttention (status : String) (last_test_date : Option Timestamp)
    (now : Timestamp) : Bool :=
  if status != "Active" then false
  else
    match last_test_date with
    | none => true
    | some t => decide (hoursBetween now t ≥ 48)

/-- `calculate_hours_since` from `src/lib/models.py`: `float('inf')` for a
null date (modelled as `⊤`), otherwise the elapsed hours. -/
def calculateHoursSince (date : Option Timestamp) (now : Timestamp) : WithTop ℚ :=
  match date with
  | none => ⊤
  | some t => (hoursBetween now t : ℚ)

/-- Generated column `monitoring_queue.priority INTEGER`
(001_create_base_tables.py):
`CASE WHEN hours_since_test >= 48 THEN 1 WHEN hours_since_test >= 36 THEN 2
ELSE 3 END`. When `hours_since_test` is NULL both SQL comparisons evaluate to
NULL (not true), so the CASE falls through to the ELSE branch: priority 3. -/
def priorityOf (hours_since_test : Option ℤ) : ℤ :=
  match hours_since_test with
  | some h => if h ≥ 48 then 1 else if h ≥ 36 then 2 else 3
  | none => 3

/-- A row of the `monitoring_queue` table (001_create_base_tables.py):
primary key `(patient_id, admission_id)`, snapshot `hours_since_test`,
`last_checked` timestamp; `priority` is generated from `hours_since_test`. -/
structure MonitoringEntry where
  patient_id : String
  admission_id : String
  hours_since_test : Option ℤ
  last_checked : Timestamp
deriving Repr, DecidableEq

/-- The fields of an `admissions` row (the `NEW` record seen by the
`trg_monitoring_queue` trigger) that the monitoring logic reads. -/
structure AdmissionRow where
  patient_id : String
  admission_id : String
  status : String
  last_test_date : Option Timestamp
deriving Repr, DecidableEq

/-- Key equality against the `monitoring_queue` primary key. -/
def sameKey (e : MonitoringEntry) (pid aid : String) : Bool :=
  e.patient_id == pid && e.admission_id == aid

/-- Whether the queue holds an entry for `(pid, aid)`. -/
def hasEntry (q : List MonitoringEntry) (pid aid : String) : Bool :=
  q.any (fun e => sameKey e pid aid)

/-- Trigger function `update_monitoring_queue`
(002_create_triggers_and_functions.py), fired AFTER INSERT OR UPDATE on
`admissions`: if `NEW.needs_attention` then INSERT the key with
`NEW.hours_since_test`, ON CONFLICT updating only `hours_since_test`
(`last_checked` keeps its old value; a fresh INSERT gets the
`DEFAULT now()`); else DELETE the key. -/
def updateMonitoringQueue (q : List MonitoringEntry) (row : AdmissionRow)
    (now : Timestamp) : List MonitoringEntry :=
  if sqlNeedsAttention row.status row.last_test_date now then
    if hasEntry q row.patient_id row.admission_id then
      q.map (fun e =>
        if sameKey e row.patient_id row.admission_id
        then { e with hours_since_test := sqlHoursSinceTest row.last_test_date now }
        else e)
    else
      q ++ [{ patient_id := row.patient_id, admission_id := row.admission_id,
              hours_since_test := sqlHoursSinceTest row.last_test_date now,
              last_checked := now }]
  else
    q.filter (fun e => !(sameKey e row.patient_id row.admission_id))

/-- A sequence of admission-row updates, each firing the trigger in order. -/
def applyAdmissionUpdates (q : List MonitoringEntry)
    (events : List (AdmissionRow × Timestamp)) : List MonitoringEntry :=
  events.foldl (fun s ev => updateMonitoringQueue s ev.1 ev.2) q

/-- Trigger function `update_admission_last_test`
(002_create_triggers_and_functions.py), fired AFTER INSERT OR UPDATE on
`lab_tests`: `SET last_test_date = NEW.test_date` only when
`last_test_date IS NULL OR NEW.test_date > last_test_date`. -/
def updateAdmissionLastTest (last_test_date : Option Timestamp)
    (test_date : Timestamp) : Option Timestamp :=
  match last_test_date with
  | none => some test_date
  | some c => if test_date > c then some test_date else some c

/-- Fold a sequence of inserted test dates through the trigger. -/
def applyTests (init : Option Timestamp) (tests : List Timestamp) : Option Timestamp :=
  tests.foldl updateAdmissionLastTest init

/-! ## Batch claimer (`process_monitoring_batch`) -/

/-- Sort key for `ORDER BY mq.hours_since_test DESC`: PostgreSQL treats NULL
as largest under DESC (NULLS FIRST by default), modelled by `⊤`. -/
def hoursKey (e : MonitoringEntry) : WithTop ℤ :=
  match e.hours_since_test with
  | none => ⊤
  | some h => (h : WithTop ℤ)

/-- `a` sorts no later than `b` under `ORDER BY hours_since_test DESC`. -/
def entryGE (a b : MonitoringEntry) : Prop := hoursKey b ≤ hoursKey a

instance : DecidableRel entryGE := fun a b =>
  inferInstanceAs (Decidable (hoursKey b ≤ hoursKey a))

instance : IsTotal MonitoringEntry entryGE :=
  ⟨fun a b => (le_total (hoursKey b) (hoursKey a)).imp id id⟩

instance : IsTrans MonitoringEntry entryGE :=
  ⟨fun _ _ _ hab hbc => le_trans hbc hab⟩

/-- The batch selected by `process_monitoring_batch`
(002_create_triggers_and_functions.py):
`SELECT ... FROM monitoring_queue WHERE priority = 1 ORDER BY hours_since_test
DESC LIMIT p_batch_size FOR UPDATE SKIP LOCKED`. Rows currently row-locked by
another in-flight transaction are skipped (`locked` is that set of keys;
it is empty when no other claim transaction is open). -/
def selectBatch (q : List MonitoringEntry) (locked : List (String × String))
    (batchSize : ℕ) : List MonitoringEntry :=
  (List.insertionSort entryGE
    (q.filter (fun e =>
      priorityOf e.hours_since_test == 1 &&
      !(locked.contains (e.patient_id, e.admission_id))))).take batchSize

/-- The `UPDATE monitoring_queue SET last_checked = NOW() FROM batch`
step of `process_monitoring_batch`: marks exactly the selected keys. -/
def markBatch (q : List MonitoringEntry) (claimed : List MonitoringEntry)
    (now : Timestamp) : List MonitoringEntry :=
  q.map (fun e =>
    if claimed.any (fun b => sameKey e b.patient_id b.admission_id)
    then { e with last_checked := now }
    else e)

/-- `process_monitoring_batch(p_batch_size)`: selects the batch and sets
`last_checked = NOW()` on it in the same atomic statement, returning the
selected rows together with the updated queue. -/
def processMonitoringBatch (q : List MonitoringEntry)
    (locked : List (String × String)) (batchSize : ℕ) (now : Timestamp) :
    List MonitoringEntry × List MonitoringEntry :=
  let claimed := selectBatch q locked batchSize
  (claimed, markBatch q claimed now)

/-! ## DynamoDB models (`src/lib/models.py`) -/

/-- A DynamoDB attribute value as produced by the dataclass models: a string,
an integer, or Python `None`. -/
inductive AttrVal where
  | s : String → AttrVal
  | i : ℤ → AttrVal
  | null : AttrVal
deriving Repr, DecidableEq

/-- A DynamoDB item: attribute name/value pairs in insertion order. -/
abbrev Item := List (String × AttrVal)

/-- `from_item`'s first step: `{k: v for k, v in item.items() if k not in
['PK', 'SK']}`. -/
def stripKeys (item : Item) : Item :=
  item.filter (fun kv => kv.1 != "PK" && kv.1 != "SK")

/-- Read a required string attribute. -/
def getStr (item : Item) (k : String) : Option String :=
  match item.lookup k with
  | some (.s v) => some v
  | _ => none

/-- Read a nullable string attribute (`Optional[str]` field). -/
def getOptStr (item : Item) (k : String) : Option (Option String) :=
  match item.lookup k with
  | some (.s v) => some (some v)
  | some .null => some none
  | _ => none

/-- Read a nullable integer attribute (`Optional[int]` field). -/
def getOptInt (item : Item) (k : String) : Option (Option ℤ) :=
  match item.lookup k with
  | some (.i v) => some (some v)
  | some .null => some none
  | _ => none

/-- Encode an `Optional[str]` field value. -/
def optStrVal : Option String → AttrVal
  | some v => .s v
  | none => .null

/-- Encode an `Optional[int]` field value. -/
def optIntVal : Option ℤ → AttrVal
  | some v => .i v
  | none => .null

/-- The `Patient` dataclass (`src/lib/models.py`). -/
structure Patient where
  patient_id : String
  first_name : String
  last_name : String
  date_of_birth : String
  gender : String
  updated_at : String
deriving Repr, DecidableEq

/-- `Patient.pk`: `f"PATIENT#{self.patient_id}"`. -/
def Patient.pk (p : Patient) : String := "PATIENT#" ++ p.patient_id

/-- `Patient.sk`: `"METADATA"`. -/
def Patient.skey (_ : Patient) : String := "METADATA"

/-- `Patient.to_item`: `{'PK': pk, 'SK': sk, **fields}` in dataclass field
order. -/
def Patient.to_item (p : Patient) : Item :=
  [("PK", .s p.pk), ("SK", .s p.skey),
   ("patient_id", .s p.patient_id), ("first_name", .s p.first_name),
   ("last_name", .s p.last_name), ("date_of_birth", .s p.date_of_birth),
   ("gender", .s p.gender), ("updated_at", .s p.updated_at)]

/-- `Patient.from_item`: drop `PK`/`SK`, rebuild from the remaining
attributes (`cls(**data)`); fails if a field is missing or ill-typed. -/
def Patient.from_item (item : Item) : Option Patient := do
  let data := stripKeys item
  let patient_id ← getStr data "patient_id"
  let first_name ← getStr data "first_name"
  let last_name ← getStr data "last_name"
  let date_of_birth ← getStr data "date_of_birth"
  let gender ← getStr data "gender"
  let updated_at ← getStr data "updated_at"
  pure { patient_id, first_name, last_name, date_of_birth, gender, updated_at }

/-- The `Admission` dataclass (`src/lib/models.py`). -/
structure AdmissionModel where
  patient_id : String
  admission_id : String
  admission_date : String
  ward : String
  bed_number : String
  status : String
  last_test_date : Option String
  hours_since_test : Option ℤ
  updated_at : String
deriving Repr, DecidableEq

/-- `Admission.pk`: `f"PATIENT#{self.patient_id}"`. -/
def AdmissionModel.pk (a : AdmissionModel) : String := "PATIENT#" ++ a.patient_id

/-- `Admission.sk`: `f"ADMISSION#{self.admission_id}"`. -/
def AdmissionModel.skey (a : AdmissionModel) : String := "ADMISSION#" ++ a.admission_id

/-- `Admission.to_item`. -/
def AdmissionModel.to_item (a : AdmissionModel) : Item :=
  [("PK", .s a.pk), ("SK", .s a.skey),
   ("patient_id", .s a.patient_id), ("admission_id", .s a.admission_id),
   ("admission_date", .s a.admission_date), ("ward", .s a.ward),
   ("bed_number", .s a.bed_number), ("status", .s a.status),
   ("last_test_date", optStrVal a.last_test_date),
   ("hours_since_test", optIntVal a.hours_since_test),
   ("updated_at", .s a.updated_at)]

/-- `Admission.from_item`. -/
def AdmissionModel.from_item (item : Item) : Option AdmissionModel := do
  let data := stripKeys item
  let patient_id ← getStr data "patient_id"
  let admission_id ← getStr data "admission_id"
  let admission_date ← getStr data "admission_date"
  let ward ← getStr data "ward"
  let bed_number ← getStr data "bed_number"
  let status ← getStr data "status"
  let last_test_date ← getOptStr data "last_test_date"
  let hours_since_test ← getOptInt data "hours_since_test"
  let updated_at ← getStr data "updated_at"
  pure { patient_id, admission_id, admission_date, ward, bed_number, status,
         last_test_date, hours_since_test, updated_at }

/-- The `LabTest` dataclass (`src/lib/models.py`). -/
structure LabTest where
  test_id : String
  patient_id : String
  admission_id : String
  test_type : String
  test_date : String
  result : String
  status : String
  lab_location : String
  updated_at : String
deriving Repr, DecidableEq

/-- `LabTest.pk`: `f"ADMISSION#{self.admission_id}"`. -/
def LabTest.pk (t : LabTest) : String := "ADMISSION#" ++ t.admission_id

/-- `LabTest.sk`: `f"TEST#{self.test_date}#{self.test_id}"`. -/
def LabTest.skey (t : LabTest) : String := "TEST#" ++ t.test_date ++ "#" ++ t.test_id

/-- `LabTest.to_item`. -/
def LabTest.to_item (t : LabTest) : Item :=
  [("PK", .s t.pk), ("SK", .s t.skey),
   ("test_id", .s t.test_id), ("patient_id", .s t.patient_id),
   ("admission_id", .s t.admission_id), ("test_type", .s t.test_type),
   ("test_date", .s t.test_date), ("result", .s t.result),
   ("status", .s t.status), ("lab_location", .s t.lab_location),
   ("updated_at", .s t.updated_at)]

/-- `LabTest.from_item`. -/
def LabTest.from_item (item : Item) : Option LabTest := do
  let data := stripKeys item
  let test_id ← getStr data "test_id"
  let patient_id ← getStr data "patient_id"
  let admission_id ← getStr data "admission_id"
  let test_type ← getStr data "test_type"
  let test_date ← getStr data "test_date"
  let result ← getStr data "result"
  let status ← getStr data "status"
  let lab_location ← getStr data "lab_location"
  let updated_at ← getStr data "updated_at"
  pure { test_id, patient_id, admission_id, test_type, test_date, result,
         status, lab_location, updated_at }

/-! ## Monitor sweep (`src/functions/monitor_patients/handler.py`) -/

/-- `get_patients_needing_attention`: queries the admissions GSI with
`#status = :status AND hoursSinceTest >= :hours` at `:status = 'Active'`,
`:hours = 48`. An admission whose `hours_since_test` attribute is absent is
not in the sparse range-keyed index and is never returned. -/
def getPatientsNeedingAttention (rows : List AdmissionModel) : List AdmissionModel :=
  rows.filter (fun a =>
    a.status == "Active" &&
      (match a.hours_since_test with
       | some h => decide (h ≥ 48)
       | none => false))

/-- The payload of `create_alert_message` that identifies the alert. -/
structure AlertMessage where
  patientId : String
  admissionId : String
  hoursSinceTest : Option ℤ
deriving Repr, DecidableEq

/-- `create_alert_message(patient)`. -/
def createAlertMessage (a : AdmissionModel) : AlertMessage :=
  { patientId := a.patient_id, admissionId := a.admission_id,
    hoursSinceTest := a.hours_since_test }

/-- One invocation of the monitor `handle` sweep: it broadcasts one alert per
admission returned by `get_patients_needing_attention` — a pure function of
the current admission rows, with no memory of previous sweeps. -/
def sweepAlerts (rows : List AdmissionModel) : List AlertMessage :=
  (getPatientsNeedingAttention rows).map createAlertMessage

/-! ## WebSocket broadcast (`src/utils/websocket.py`) -/

/-- Outcome of attempting delivery to one connection, as observable through
`send_message`: the raw `post_to_connection` succeeds; or it raises
`GoneException` and the follow-up `remove_connection` cleanup succeeds; or it
raises `GoneException` and the cleanup's `delete_item` itself fails — that
failure is re-raised by `remove_connection` and, being thrown inside the
`except GoneException` handler body, is *not* caught by the sibling
`except Exception` clause; or it raises some other exception. -/
inductive SendOutcome where
  | delivered
  | gone
  | goneCleanupFail : String → SendOutcome
  | err
deriving Repr, DecidableEq

/-- `WebSocketConnection.send_message`: returns `True` on success; on
`GoneException` it awaits `remove_connection` (whose `delete_item` failure
re-raises and escapes `send_message`) and then returns `False`; any other
exception is caught and `False` is returned. -/
def sendMessage (outcome : String → SendOutcome) (connection_id : String) :
    Except String Bool :=
  match outcome connection_id with
  | .delivered => .ok true
  | .gone => .ok false
  | .goneCleanupFail e => .error e
  | .err => .ok false

/-- Whether `send_message` would report a successful delivery for `c`. -/
def deliverySucceeds (outcome : String → SendOutcome) (c : String) : Bool :=
  match outcome c with
  | .delivered => true
  | _ => false

/-- Whether this outcome makes `send_message` raise (gone connection whose
registry cleanup failed). -/
def cleanupFails : SendOutcome → Bool
  | .goneCleanupFail _ => true
  | _ => false

/-- The statistics dictionary returned by `broadcast_message`. -/
structure BroadcastStats where
  total : ℕ
  sent : ℕ
  failed : ℕ
  excluded : ℕ
deriving Repr, DecidableEq

/-- The per-connection loop body of `broadcast_message`: once an exception
has escaped, the loop is over (the outer `except` re-raises it); otherwise
skip excluded connections and count the `send_message` result as sent or
failed, propagating an exception escaping `send_message`. -/
def broadcastStep (outcome : String → SendOutcome) (exclude : List String)
    (acc : Except String BroadcastStats) (connection_id : String) :
    Except String BroadcastStats :=
  match acc with
  | .error e => .error e
  | .ok stats =>
    if exclude.contains connection_id then .ok stats
    else
      match sendMessage outcome connection_id with
      | .error e => .error e
      | .ok true => .ok { stats with sent := stats.sent + 1 }
      | .ok false => .ok { stats with failed := stats.failed + 1 }

/-- `WebSocketConnection.broadcast_message`: scans the connections table,
sets `total` to the number of scanned connections and `excluded` to
`len(exclude_connections or [])`, then attempts delivery to each non-excluded
connection in turn. Any exception — a failing scan, or one escaping
`send_message` mid-loop — reaches the outer `except`, is logged and
re-raised to the caller, so no statistics are returned on that path. -/
def broadcastMessage (scan : Except String (List String))
    (outcome : String → SendOutcome) (exclude : List String) :
    Except String BroadcastStats :=
  match scan with
  | .error e => .error e
  | .ok connections =>
    connections.foldl (broadcastStep outcome exclude)
      (.ok { total := connections.length, sent := 0, failed := 0,
             excluded := exclude.length })

/-! ## Configuration validation (`src/utils/config.py`) -/

/-- The `MonitoringConfig` pydantic model: four integer fields with
per-field bounds only (`test_alert_threshold ≥ 1`, `warning_threshold ≥ 1`,
`check_interval ≥ 10`, `1 ≤ batch_size ≤ 1000`). -/
structure MonitoringConfig where
  test_alert_threshold : ℤ := 48
  warning_threshold : ℤ := 36
  check_interval : ℤ := 60
  batch_size : ℤ := 100
deriving Repr, DecidableEq

/-- Whether pydantic validation of `MonitoringConfig` accepts the values —
the complete set of constraints `load_config` applies to the monitoring
section (there is no cross-field check relating the two thresholds). -/
def MonitoringConfig.valid (c : MonitoringConfig) : Bool :=
  decide (1 ≤ c.test_alert_threshold) && decide (1 ≤ c.warning_threshold) &&
  decide (10 ≤ c.check_interval) &&
  decide (1 ≤ c.batch_size) && decide (c.batch_size ≤ 1000)

/-! ## Theorems -/

/-- **C2 — counterexample.** At exactly 48 hours since the last test
(`now = 172800` s, `last_test_date = 0` s, so `hoursSinceTest = 48`), the SQL
generated column `needs_attention` is still `false` — the migration compares
with strict `> 48` — even though the claim says an active admission already
needs attention at exactly the threshold. (The Python model, using `>= 48`,
returns `true` at the same instant.) -/
theorem sql_needs_attention_boundary_cex :
    hoursBetween 172800 0 = 48 ∧
    sqlNeedsAttention "Active" (some 0) 172800 = false ∧
    pyNeedsAttention "Active" (some 0) 172800 = true := by
  refine ⟨by norm_num [hoursBetween], ?_, ?_⟩ <;>
    norm_num [sqlNeedsAttention, pyNeedsAttention, hoursBetween]

/-- **C2 — amended.** For an active admission with a non-null last test time,
the Python model's `needs_attention` is true exactly when `hoursSinceTest ≥
48`, while the SQL generated column is true exactly when `hoursSinceTest >
48`; the two disagree precisely at `hoursSinceTest = 48`. For any status other
than `Active`, both are false. -/
theorem needs_attention_thresholds (status : String) (last : Option Timestamp)
    (now t : Timestamp) (hs : status ≠ "Active") :
    (pyNeedsAttention "Active" (some t) now = true ↔ 48 ≤ hoursBetween now t)
    ∧ (sqlNeedsAttention "Active" (some t) now = true ↔ 48 < hoursBetween now t)
    ∧ (pyNeedsAttention "Active" (some t) now ≠ sqlNeedsAttention "Active" (some t) now
        ↔ hoursBetween now t = 48)
    ∧ pyNeedsAttention status last now = false
    ∧ sqlNeedsAttention status last now = false := by
  have hb : (status == "Active") = false := by
    simpa using hs
  refine ⟨by simp [pyNeedsAttention, ge_iff_le], by simp [sqlNeedsAttention], ?_, ?_, ?_⟩
  · constructor
    · intro hne
      by_contra hne48
      rcases lt_or_gt_of_ne hne48 with hlt | hgt
      · exact hne (by simp [pyNeedsAttention, sqlNeedsAttention, not_le.mpr hlt,
          not_lt.mpr (le_of_lt hlt)])
      · exact hne (by simp [pyNeedsAttention, sqlNeedsAttention, le_of_lt hgt, hgt])
    · intro h48
      simp [pyNeedsAttention, sqlNeedsAttention, h48]
  · simp [pyNeedsAttention, hb, bne]
  · simp [sqlNeedsAttention, hb]

/-- **C2 — witness** for `needs_attention_thresholds` at
`status = "Discharged"`, `last = none`, `now = 180000`, `t = 0`. -/
theorem needs_attention_thresholds_witness :
    (pyNeedsAttention "Active" (some 0) 180000 = true ↔ 48 ≤ hoursBetween 180000 0)
    ∧ (sqlNeedsAttention "Active" (some 0) 180000 = true ↔ 48 < hoursBetween 180000 0)
    ∧ (pyNeedsAttention "Active" (some 0) 180000 ≠ sqlNeedsAttention "Active" (some 0) 180000
        ↔ hoursBetween 180000 0 = 48)
    ∧ pyNeedsAttention "Discharged" none 180000 = false
    ∧ sqlNeedsAttention "Discharged" none 180000 = false :=
  needs_attention_thresholds "Discharged" none 180000 0 (by decide)

/-- **C3 — code bug.** The `monitoring_queue.priority` CASE maps stored hours
to tiers as the claim says for non-NULL hours (`≥ 48 → 1`,
`36 ≤ h < 48 → 2`, `< 36 → 3`); but for an active admission with no test ever
recorded `admissions.hours_since_test` is NULL, both CASE comparisons are not
true, and the row gets priority 3 — not tier 1 as the claim (and the Python
model's `float('inf')` semantics, and spec Scenario A) require. -/
theorem priority_tiers_and_null (h : ℤ) (now : Timestamp) :
    (48 ≤ h → priorityOf (some h) = 1)
    ∧ (36 ≤ h → h < 48 → priorityOf (some h) = 2)
    ∧ (h < 36 → priorityOf (some h) = 3)
    ∧ sqlHoursSinceTest none now = none
    ∧ calculateHoursSince none now = ⊤
    ∧ priorityOf (sqlHoursSinceTest none now) = 3 := by
  refine ⟨?_, ?_, ?_, rfl, rfl, rfl⟩ <;>
    · intros
      simp only [priorityOf]
      omega

/-- **C3 — witness** for `priority_tiers_and_null` at concrete hours. -/
theorem priority_tiers_and_null_witness :
    priorityOf (some 50) = 1 ∧ priorityOf (some 40) = 2 ∧ priorityOf (some 10) = 3
    ∧ priorityOf (sqlHoursSinceTest none 0) = 3 :=
  ⟨(priority_tiers_and_null 50 0).1 (by norm_num),
   (priority_tiers_and_null 40 0).2.1 (by norm_num) (by norm_num),
   (priority_tiers_and_null 10 0).2.2.1 (by norm_num),
   (priority_tiers_and_null 10 0).2.2.2.2.2⟩

/-- **C8 — counterexample.** A monitoring configuration with
`warning_threshold = 50 ≥ 48 = test_alert_threshold` passes every validation
constraint `load_config` applies, so configuration loading succeeds — the
claim that such an ordering is rejected at startup is false. -/
theorem config_ordering_not_validated_cex :
    MonitoringConfig.valid
      { test_alert_threshold := 48, warning_threshold := 50,
        check_interval := 60, batch_size := 100 } = true
    ∧ (48 : ℤ) ≤ 50 := by
  constructor
  · rfl
  · norm_num

/-- **C8 — amended.** Configuration loading validates only per-field bounds
(`test_alert_threshold ≥ 1`, `warning_threshold ≥ 1`, `check_interval ≥ 10`,
`1 ≤ batch_size ≤ 1000`); it performs no cross-field check of the threshold
ordering, so every configuration with `warning_threshold ≥
test_alert_threshold` whose fields are within bounds loads successfully. -/
theorem config_accepts_misordered_thresholds (t w ci b : ℤ)
    (ht : 1 ≤ t) (hw : t ≤ w) (hci : 10 ≤ ci) (hb1 : 1 ≤ b) (hb2 : b ≤ 1000) :
    MonitoringConfig.valid
      { test_alert_threshold := t, warning_threshold := w,
        check_interval := ci, batch_size := b } = true := by
  simp only [MonitoringConfig.valid, Bool.and_eq_true, decide_eq_true_eq]
  omega

/-- **C8 — witness** for `config_accepts_misordered_thresholds` at
`t = 48`, `w = 50`, `ci = 60`, `b = 100`. -/
theorem config_accepts_misordered_thresholds_witness :
    MonitoringConfig.valid
      { test_alert_threshold := 48, warning_threshold := 50,
        check_interval := 60, batch_size := 100 } = true :=
  config_accepts_misordered_thresholds 48 50 60 100 (by norm_num) (by norm_num)
    (by norm_num) (by norm_num) (by norm_num)

/-- **C9.** Storage round-trip: for every `Patient`, `Admission` and `LabTest`
instance, `from_item (to_item x)` strips the derived `PK`/`SK` attributes and
reconstructs an instance equal to `x`. -/
theorem model_roundtrip (p : Patient) (a : AdmissionModel) (t : LabTest) :
    Patient.from_item p.to_item = some p
    ∧ AdmissionModel.from_item a.to_item = some a
    ∧ LabTest.from_item t.to_item = some t := by
  refine ⟨rfl, ?_, rfl⟩
  rcases a with ⟨pid, aid, ad, w, bn, st, ltd, hst, ua⟩
  cases ltd <;> cases hst <;> rfl

lemma updateAdmissionLastTest_some (c t : Timestamp) :
    updateAdmissionLastTest (some c) t = some (max c t) := by
  show (if t > c then some t else some c) = some (max c t)
  rcases le_or_lt t c with hle | hlt
  · rw [if_neg (not_lt.mpr hle), max_eq_left hle]
  · rw [if_pos hlt, max_eq_right (le_of_lt hlt)]

lemma updateAdmissionLastTest_comm (o : Option Timestamp) (a b : Timestamp) :
    updateAdmissionLastTest (updateAdmissionLastTest o a) b
      = updateAdmissionLastTest (updateAdmissionLastTest o b) a := by
  cases o with
  | none =>
    show updateAdmissionLastTest (some a) b = updateAdmissionLastTest (some b) a
    rw [updateAdmissionLastTest_some, updateAdmissionLastTest_some, max_comm]
  | some c =>
    simp only [updateAdmissionLastTest_some]
    rw [sup_right_comm]

lemma applyTests_perm {l₁ l₂ : List Timestamp} (h : l₁.Perm l₂)
    (init : Option Timestamp) : applyTests init l₁ = applyTests init l₂ := by
  induction h generalizing init with
  | nil => rfl
  | cons x _ ih =>
    simp only [applyTests, List.foldl_cons] at *
    exact ih _
  | swap x y l =>
    simp only [applyTests, List.foldl_cons]
    rw [updateAdmissionLastTest_comm]
  | trans _ _ ih₁ ih₂ => exact (ih₁ init).trans (ih₂ init)

lemma applyTests_some (c : Timestamp) (ts : List Timestamp) :
    applyTests (some c) ts = some (ts.foldl max c) := by
  induction ts generalizing c with
  | nil => rfl
  | cons t ts ih =>
    simp only [applyTests, List.foldl_cons, updateAdmissionLastTest_some] at *
    exact ih _

lemma applyTests_none_eq_maximum (ts : List Timestamp) :
    applyTests none ts = ts.max? := by
  cases ts with
  | nil => rfl
  | cons t ts =>
    show applyTests (some t) ts = _
    rw [applyTests_some]
    rfl

/-- **C4.** Folding any sequence of inserted lab-test times through the
`update_admission_last_test` trigger yields `lastTestTime` equal to the
maximum `testTime` seen, independently of arrival order, and a test whose
time is earlier than or equal to the current `lastTestTime` leaves it
unchanged. -/
theorem last_test_time_is_max (ts ts' : List Timestamp) (c t : Timestamp)
    (hperm : ts.Perm ts') (hle : t ≤ c) :
    applyTests none ts = applyTests none ts'
    ∧ applyTests none ts = ts.max?
    ∧ updateAdmissionLastTest (some c) t = some c := by
  refine ⟨applyTests_perm hperm none, applyTests_none_eq_maximum ts, ?_⟩
  rw [updateAdmissionLastTest_some, max_eq_left hle]

/-- **C4 — witness** for `last_test_time_is_max` on the sequences
`[3, 1, 2]` and `[2, 3, 1]`, and a stale test at time `4 ≤ 5`. -/
theorem last_test_time_is_max_witness :
    applyTests none [3, 1, 2] = applyTests none [2, 3, 1]
    ∧ applyTests none [3, 1, 2] = ([3, 1, 2] : List Timestamp).max?
    ∧ updateAdmissionLastTest (some 5) 4 = some 5 :=
  last_test_time_is_max [3, 1, 2] [2, 3, 1] 5 4 (by decide) (by norm_num)

lemma sameKey_update_hours (e : MonitoringEntry) (h : Option ℤ) (pid aid : String) :
    sameKey { e with hours_since_test := h } pid aid = sameKey e pid aid := rfl

lemma any_sameKey_map_update (q : List MonitoringEntry) (pid aid : String)
    (h : Option ℤ) (pid2 aid2 : String) :
    ((q.map (fun e =>
        if sameKey e pid aid then { e with hours_since_test := h } else e)).any
      (fun e => sameKey e pid2 aid2)) = q.any (fun e => sameKey e pid2 aid2) := by
  induction q with
  | nil => rfl
  | cons e q ih =>
    simp only [List.map_cons, List.any_cons, ih]
    congr 1
    by_cases hc : sameKey e pid aid = true
    · rw [if_pos hc, sameKey_update_hours]
    · rw [if_neg hc]

lemma sameKey_false_of_ne (e : MonitoringEntry) (pid aid pid2 aid2 : String)
    (he : sameKey e pid2 aid2 = true) (hne : pid2 ≠ pid ∨ aid2 ≠ aid) :
    sameKey e pid aid = false := by
  simp only [sameKey, Bool.and_eq_true, beq_iff_eq] at he
  simp only [sameKey, Bool.and_eq_false_iff, beq_eq_false_iff_ne, he.1, he.2]
  exact hne

lemma any_sameKey_filter_self (q : List MonitoringEntry) (pid aid : String) :
    ((q.filter (fun e => !(sameKey e pid aid))).any
      (fun e => sameKey e pid aid)) = false := by
  induction q with
  | nil => rfl
  | cons e q ih =>
    rw [List.filter_cons]
    by_cases hc : sameKey e pid aid = true
    · simp only [hc, Bool.not_true, Bool.false_eq_true, if_false, ih]
    · have hc' : sameKey e pid aid = false := Bool.eq_false_iff.mpr hc
      simp only [hc', Bool.not_false, if_true, List.any_cons, hc', ih,
        Bool.false_or]

lemma any_sameKey_filter_other (q : List MonitoringEntry) (pid aid pid2 aid2 : String)
    (hne : pid2 ≠ pid ∨ aid2 ≠ aid) :
    ((q.filter (fun e => !(sameKey e pid aid))).any
      (fun e => sameKey e pid2 aid2)) = q.any (fun e => sameKey e pid2 aid2) := by
  induction q with
  | nil => rfl
  | cons e q ih =>
    rw [List.filter_cons, List.any_cons]
    by_cases hc : sameKey e pid2 aid2 = true
    · have hkeep : sameKey e pid aid = false := sameKey_false_of_ne e pid aid pid2 aid2 hc hne
      simp only [hkeep, Bool.not_false, if_true, List.any_cons, hc, ih,
        Bool.true_or]
    · have hc' : sameKey e pid2 aid2 = false := Bool.eq_false_iff.mpr hc
      by_cases hk : sameKey e pid aid = true
      · simp only [hk, Bool.not_true, Bool.false_eq_true, if_false, ih, hc',
          Bool.false_or]
      · have hk' : sameKey e pid aid = false := Bool.eq_false_iff.mpr hk
        simp only [hk', Bool.not_false, if_true, List.any_cons, hc', ih,
          Bool.false_or]

lemma hasEntry_step_self (q : List MonitoringEntry) (row : AdmissionRow)
    (now : Timestamp) :
    hasEntry (updateMonitoringQueue q row now) row.patient_id row.admission_id
      = sqlNeedsAttention row.status row.last_test_date now := by
  unfold updateMonitoringQueue
  by_cases hna : sqlNeedsAttention row.status row.last_test_date now = true
  · rw [if_pos hna, hna]
    by_cases hq : hasEntry q row.patient_id row.admission_id = true
    · rw [if_pos hq]
      unfold hasEntry at *
      rw [any_sameKey_map_update]
      exact hq
    · have hq' : hasEntry q row.patient_id row.admission_id = false :=
        Bool.eq_false_iff.mpr hq
      rw [if_neg hq]
      unfold hasEntry at *
      rw [List.any_append, hq', Bool.false_or]
      simp [sameKey]
  · have hna' : sqlNeedsAttention row.status row.last_test_date now = false :=
      Bool.eq_false_iff.mpr hna
    rw [if_neg hna, hna']
    exact any_sameKey_filter_self q row.patient_id row.admission_id

lemma hasEntry_step_other (q : List MonitoringEntry) (row : AdmissionRow)
    (now : Timestamp) (pid2 aid2 : String)
    (hne : pid2 ≠ row.patient_id ∨ aid2 ≠ row.admission_id) :
    hasEntry (updateMonitoringQueue q row now) pid2 aid2 = hasEntry q pid2 aid2 := by
  unfold updateMonitoringQueue
  by_cases hna : sqlNeedsAttention row.status row.last_test_date now = true
  · rw [if_pos hna]
    by_cases hq : hasEntry q row.patient_id row.admission_id = true
    · rw [if_pos hq]
      unfold hasEntry
      rw [any_sameKey_map_update]
    · rw [if_neg hq]
      unfold hasEntry
      rw [List.any_append]
      have hnew : sameKey
          { patient_id := row.patient_id, admission_id := row.admission_id,
            hours_since_test := sqlHoursSinceTest row.last_test_date now,
            last_checked := now } pid2 aid2 = false := by
        simp only [sameKey, Bool.and_eq_false_iff, beq_eq_false_iff_ne]
        exact hne.imp (fun h => fun he => h he.symm) (fun h => fun he => h he.symm)
      simp only [List.any_cons, List.any_nil, hnew, Bool.false_or, Bool.or_false]
  · rw [if_neg hna]
    exact any_sameKey_filter_other q row.patient_id row.admission_id pid2 aid2 hne

lemma hasEntry_applyUpdates_other (q : List MonitoringEntry)
    (events : List (AdmissionRow × Timestamp)) (pid2 aid2 : String)
    (h : ∀ ev ∈ events, pid2 ≠ ev.1.patient_id ∨ aid2 ≠ ev.1.admission_id) :
    hasEntry (applyAdmissionUpdates q events) pid2 aid2 = hasEntry q pid2 aid2 := by
  induction events generalizing q with
  | nil => rfl
  | cons ev events ih =>
    show hasEntry (applyAdmissionUpdates (updateMonitoringQueue q ev.1 ev.2) events)
        pid2 aid2 = _
    rw [ih _ (fun e he => h e (List.mem_cons_of_mem _ he)),
      hasEntry_step_other _ _ _ _ _ (h ev (List.mem_cons_self _ _))]

/-- **C1.** After the `trg_monitoring_queue` trigger processes an admission's
update, and any further updates for *other* admissions are processed, a
`monitoring_queue` entry for `(patientId, admissionId)` exists if and only if
that admission's `needs_attention` column is true; in particular a discharged
admission is never present in the index after its update. -/
theorem monitoring_membership (q : List MonitoringEntry) (row : AdmissionRow)
    (now : Timestamp) (rest : List (AdmissionRow × Timestamp))
    (hrest : ∀ ev ∈ rest, row.patient_id ≠ ev.1.patient_id
      ∨ row.admission_id ≠ ev.1.admission_id) :
    hasEntry (applyAdmissionUpdates (updateMonitoringQueue q row now) rest)
        row.patient_id row.admission_id
      = sqlNeedsAttention row.status row.last_test_date now
    ∧ (row.status = "Discharged" →
        hasEntry (applyAdmissionUpdates (updateMonitoringQueue q row now) rest)
          row.patient_id row.admission_id = false) := by
  have hmain :
      hasEntry (applyAdmissionUpdates (updateMonitoringQueue q row now) rest)
          row.patient_id row.admission_id
        = sqlNeedsAttention row.status row.last_test_date now := by
    rw [hasEntry_applyUpdates_other _ _ _ _ hrest, hasEntry_step_self]
  refine ⟨hmain, fun hd => ?_⟩
  rw [hmain]
  simp [sqlNeedsAttention, hd]

/-- **C1 — witness** for `monitoring_membership`: a stale entry for a
discharged admission is removed and stays absent across an unrelated
admission's update. -/
theorem monitoring_membership_witness :
    hasEntry
      (applyAdmissionUpdates
        (updateMonitoringQueue
          [{ patient_id := "P1", admission_id := "A1",
             hours_since_test := some 50, last_checked := 0 }]
          { patient_id := "P1", admission_id := "A1", status := "Discharged",
            last_test_date := none } 0)
        [({ patient_id := "P2", admission_id := "A2", status := "Active",
            last_test_date := none }, 0)]) "P1" "A1"
      = sqlNeedsAttention "Discharged" none 0
    ∧ ("Discharged" = "Discharged" →
        hasEntry
          (applyAdmissionUpdates
            (updateMonitoringQueue
              [{ patient_id := "P1", admission_id := "A1",
                 hours_since_test := some 50, last_checked := 0 }]
              { patient_id := "P1", admission_id := "A1", status := "Discharged",
                last_test_date := none } 0)
            [({ patient_id := "P2", admission_id := "A2", status := "Active",
                last_test_date := none }, 0)]) "P1" "A1" = false) :=
  monitoring_membership
    [{ patient_id := "P1", admission_id := "A1",
       hours_since_test := some 50, last_checked := 0 }]
    { patient_id := "P1", admission_id := "A1", status := "Discharged",
      last_test_date := none } 0
    [({ patient_id := "P2", admission_id := "A2", status := "Active",
        last_test_date := none }, 0)]
    (by intro ev hev; simp at hev; rw [hev]; left; decide)

lemma map_update_id (s : List MonitoringEntry) (pid aid : String) (h : Option ℤ)
    (hhours : ∀ e ∈ s, sameKey e pid aid = true → e.hours_since_test = h) :
    s.map (fun e =>
      if sameKey e pid aid then { e with hours_since_test := h } else e) = s := by
  induction s with
  | nil => rfl
  | cons e s ih =>
    rw [List.map_cons, ih (fun x hx hk => hhours x (List.mem_cons_of_mem _ hx) hk)]
    by_cases hc : sameKey e pid aid = true
    · rw [if_pos hc, ← hhours e (List.mem_cons_self _ _) hc]
    · rw [if_neg hc]

lemma updateMonitoringQueue_hours (q : List MonitoringEntry) (row : AdmissionRow)
    (now : Timestamp) :
    ∀ e ∈ updateMonitoringQueue q row now,
      sameKey e row.patient_id row.admission_id = true →
      e.hours_since_test = sqlHoursSinceTest row.last_test_date now := by
  intro e he hk
  unfold updateMonitoringQueue at he
  by_cases hna : sqlNeedsAttention row.status row.last_test_date now = true
  · rw [if_pos hna] at he
    by_cases hq : hasEntry q row.patient_id row.admission_id = true
    · rw [if_pos hq] at he
      obtain ⟨x, hx, hfx⟩ := List.mem_map.mp he
      by_cases hc : sameKey x row.patient_id row.admission_id = true
      · rw [if_pos hc] at hfx
        rw [← hfx]
      · rw [if_neg hc] at hfx
        subst hfx
        exact absurd hk hc
    · rw [if_neg hq] at he
      rcases List.mem_append.mp he with hin | hin
      · exact absurd (List.any_eq_true.mpr ⟨e, hin, hk⟩) hq
      · rw [List.mem_singleton] at hin
        subst hin
        rfl
  · rw [if_neg hna] at he
    have hkeep := List.of_mem_filter he
    rw [hk] at hkeep
    exact absurd hkeep (by decide)

lemma updateMonitoringQueue_eq_self (s : List MonitoringEntry) (row : AdmissionRow)
    (now : Timestamp)
    (hmem : hasEntry s row.patient_id row.admission_id
      = sqlNeedsAttention row.status row.last_test_date now)
    (hhours : ∀ e ∈ s, sameKey e row.patient_id row.admission_id = true →
      e.hours_since_test = sqlHoursSinceTest row.last_test_date now) :
    updateMonitoringQueue s row now = s := by
  unfold updateMonitoringQueue
  by_cases hna : sqlNeedsAttention row.status row.last_test_date now = true
  · rw [if_pos hna, if_pos (by rw [hmem]; exact hna)]
    exact map_update_id s _ _ _ hhours
  · rw [if_neg hna]
    have hmem' : hasEntry s row.patient_id row.admission_id = false := by
      rw [hmem]
      exact Bool.eq_false_iff.mpr hna
    unfold hasEntry at hmem'
    rw [List.any_eq_false] at hmem'
    apply List.filter_eq_self.mpr
    intro e he
    have := hmem' e he
    simp only [Bool.not_eq_true] at this
    rw [this]
    rfl

/-- **C6 — counterexample.** The monitor sweep is a pure function of the
current admission rows with no memory of previous sweeps: with one active
admission 50 hours overdue, a sweep emits one alert, and a second sweep over
the unchanged state emits the same one alert again — not zero, contradicting
the claim that a second application with the same admission state emits no
alert. -/
theorem reconcile_second_sweep_alerts_cex :
    (sweepAlerts
      [{ patient_id := "P1", admission_id := "A1", admission_date := "d",
         ward := "W", bed_number := "B", status := "Active",
         last_test_date := some "t", hours_since_test := some 50,
         updated_at := "u" }]).length = 1
    ∧ (sweepAlerts
      [{ patient_id := "P1", admission_id := "A1", admission_date := "d",
         ward := "W", bed_number := "B", status := "Active",
         last_test_date := some "t", hours_since_test := some 50,
         updated_at := "u" }]).length ≠ 0 := by
  constructor
  · rfl
  · decide

/-- **C6 — amended.** The index-update step is idempotent: applying
`update_monitoring_queue` twice with the same admission state yields the same
monitoring-queue state as applying it once. The alert path, however, is not
transition-based: every monitor sweep emits exactly one alert per admission
currently satisfying the needing-attention query, regardless of what earlier
sweeps emitted. -/
theorem reconcile_idempotent (q : List MonitoringEntry) (row : AdmissionRow)
    (now : Timestamp) (rows : List AdmissionModel) :
    updateMonitoringQueue (updateMonitoringQueue q row now) row now
      = updateMonitoringQueue q row now
    ∧ (sweepAlerts rows).length = (getPatientsNeedingAttention rows).length := by
  constructor
  · exact updateMonitoringQueue_eq_self _ row now
      (by rw [hasEntry_step_self]) (updateMonitoringQueue_hours q row now)
  · exact List.length_map _ _

lemma broadcastStep_ok (outcome : String → SendOutcome) (exclude : List String)
    (s : BroadcastStats) (c : String) :
    broadcastStep outcome exclude (Except.ok s) c
      = if exclude.contains c then Except.ok s
        else
          match sendMessage outcome c with
          | .error e => .error e
          | .ok true => Except.ok { s with sent := s.sent + 1 }
          | .ok false => Except.ok { s with failed := s.failed + 1 } := rfl

lemma broadcast_foldl (outcome : String → SendOutcome) (exclude : List String)
    (conns : List String) (s : BroadcastStats)
    (hsafe : ∀ c ∈ conns, exclude.contains c = false →
      cleanupFails (outcome c) = false) :
    conns.foldl (broadcastStep outcome exclude) (Except.ok s)
      = Except.ok { s with
          sent := s.sent + (conns.filter
            (fun c => !(exclude.contains c) && deliverySucceeds outcome c)).length,
          failed := s.failed + (conns.filter
            (fun c => !(exclude.contains c) && !(deliverySucceeds outcome c))).length } := by
  induction conns generalizing s with
  | nil => rfl
  | cons c conns ih =>
    have ih' := fun s => ih s (fun x hx => hsafe x (List.mem_cons_of_mem _ hx))
    rw [List.foldl_cons, broadcastStep_ok]
    by_cases hex : exclude.contains c = true
    · have hc1 : (!(exclude.contains c) && deliverySucceeds outcome c) = false := by
        rw [hex]
        rfl
      have hc2 : (!(exclude.contains c) && !(deliverySucceeds outcome c)) = false := by
        rw [hex]
        rfl
      rw [if_pos hex, ih', List.filter_cons, List.filter_cons,
        if_neg (by rw [hc1]; exact Bool.false_ne_true),
        if_neg (by rw [hc2]; exact Bool.false_ne_true)]
    · have hex' : exclude.contains c = false := Bool.eq_false_iff.mpr hex
      have hnof := hsafe c (List.mem_cons_self _ _) hex'
      rw [if_neg hex]
      cases ho : outcome c with
      | delivered =>
        have hsend : sendMessage outcome c = Except.ok true := by
          unfold sendMessage
          rw [ho]
        have hds : deliverySucceeds outcome c = true := by
          unfold deliverySucceeds
          rw [ho]
        have hc1 : (!(exclude.contains c) && deliverySucceeds outcome c) = true := by
          rw [hex', hds]
          rfl
        have hc2 : (!(exclude.contains c) && !(deliverySucceeds outcome c)) = false := by
          rw [hex', hds]
          rfl
        rw [hsend]
        show List.foldl (broadcastStep outcome exclude)
            (Except.ok { s with sent := s.sent + 1 }) conns = _
        rw [ih', List.filter_cons, List.filter_cons, if_pos hc1,
          if_neg (by rw [hc2]; exact Bool.false_ne_true), List.length_cons]
        simp only [Except.ok.injEq, BroadcastStats.mk.injEq, true_and, and_true]
        omega
      | gone =>
        have hsend : sendMessage outcome c = Except.ok false := by
          unfold sendMessage
          rw [ho]
        have hds : deliverySucceeds outcome c = false := by
          unfold deliverySucceeds
          rw [ho]
        have hc1 : (!(exclude.contains c) && deliverySucceeds outcome c) = false := by
          rw [hex', hds]
          rfl
        have hc2 : (!(exclude.contains c) && !(deliverySucceeds outcome c)) = true := by
          rw [hex', hds]
          rfl
        rw [hsend]
        show List.foldl (broadcastStep outcome exclude)
            (Except.ok { s with failed := s.failed + 1 }) conns = _
        rw [ih', List.filter_cons, List.filter_cons,
          if_neg (by rw [hc1]; exact Bool.false_ne_true), if_pos hc2,
          List.length_cons]
        simp only [Except.ok.injEq, BroadcastStats.mk.injEq, true_and, and_true]
        omega
      | goneCleanupFail e =>
        rw [ho] at hnof
        simp [cleanupFails] at hnof
      | err =>
        have hsend : sendMessage outcome c = Except.ok false := by
          unfold sendMessage
          rw [ho]
        have hds : deliverySucceeds outcome c = false := by
          unfold deliverySucceeds
          rw [ho]
        have hc1 : (!(exclude.contains c) && deliverySucceeds outcome c) = false := by
          rw [hex', hds]
          rfl
        have hc2 : (!(exclude.contains c) && !(deliverySucceeds outcome c)) = true := by
          rw [hex', hds]
          rfl
        rw [hsend]
        show List.foldl (broadcastStep outcome exclude)
            (Except.ok { s with failed := s.failed + 1 }) conns = _
        rw [ih', List.filter_cons, List.filter_cons,
          if_neg (by rw [hc1]; exact Bool.false_ne_true), if_pos hc2,
          List.length_cons]
        simp only [Except.ok.injEq, BroadcastStats.mk.injEq, true_and, and_true]
        omega

lemma broadcastMessage_ok_of_safe (conns : List String)
    (outcome : String → SendOutcome) (exclude : List String)
    (hsafe : ∀ c ∈ conns, exclude.contains c = false →
      cleanupFails (outcome c) = false) :
    broadcastMessage (Except.ok conns) outcome exclude
      = Except.ok
          { total := conns.length,
            sent := (conns.filter
              (fun c => !(exclude.contains c) && deliverySucceeds outcome c)).length,
            failed := (conns.filter
              (fun c => !(exclude.contains c)
                && !(deliverySucceeds outcome c))).length,
            excluded := exclude.length } := by
  show conns.foldl (broadcastStep outcome exclude)
      (Except.ok ({ total := conns.length, sent := 0, failed := 0,
                    excluded := exclude.length } : BroadcastStats)) = _
  rw [broadcast_foldl _ _ _ _ hsafe]
  simp

/-- **C7 — counterexample.** A delivery failure can abort the broadcast and
raise to the caller: when `post_to_connection` raises `GoneException` and the
follow-up `remove_connection` cleanup's `delete_item` fails, that exception
is thrown inside the `except GoneException` handler body, escapes
`send_message`, and `broadcast_message`'s outer handler re-raises it — so the
second observer is never attempted, the failure is counted nowhere, and the
caller gets an exception instead of stats, contradicting the claim. -/
theorem broadcast_gone_cleanup_raises_cex :
    sendMessage
        (fun c => if c == "C1" then SendOutcome.goneCleanupFail "ddb"
          else SendOutcome.delivered) "C1" = Except.error "ddb"
    ∧ broadcastMessage (Except.ok ["C1", "C2"])
        (fun c => if c == "C1" then SendOutcome.goneCleanupFail "ddb"
          else SendOutcome.delivered) [] = Except.error "ddb" :=
  ⟨rfl, rfl⟩

/-- **C7 — amended.** Delivery failures that `send_message` catches — a
plain send error, or a gone connection whose registry cleanup succeeds — do
not prevent delivery attempts to the remaining observers, are counted in the
`failed` statistic, and are not raised to the caller: whenever no non-excluded
connection hits a gone-connection cleanup failure, `broadcast_message` returns
`.ok` stats accounting for every non-excluded connection. A gone connection
whose `remove_connection` cleanup itself fails is the exception: it escapes
`send_message` and `broadcast_message` re-raises it (see the
counterexample). -/
theorem broadcast_partial_failure_amended (conns : List String)
    (outcome : String → SendOutcome) (exclude : List String)
    (hsafe : ∀ c ∈ conns, exclude.contains c = false →
      cleanupFails (outcome c) = false) :
    broadcastMessage (Except.ok conns) outcome exclude
      = Except.ok
          { total := conns.length,
            sent := (conns.filter
              (fun c => !(exclude.contains c) && deliverySucceeds outcome c)).length,
            failed := (conns.filter
              (fun c => !(exclude.contains c)
                && !(deliverySucceeds outcome c))).length,
            excluded := exclude.length } :=
  broadcastMessage_ok_of_safe conns outcome exclude hsafe

/-- **C7 — witness** for `broadcast_partial_failure_amended`: three
connections, the second failing with a caught error — both others are still
delivered and the failure is counted in `failed`. -/
theorem broadcast_partial_failure_amended_witness :
    broadcastMessage (Except.ok ["C1", "C2", "C3"])
        (fun c => if c == "C2" then SendOutcome.err else SendOutcome.delivered)
        []
      = Except.ok { total := 3, sent := 2, failed := 1, excluded := 0 } :=
  (broadcast_partial_failure_amended ["C1", "C2", "C3"]
    (fun c => if c == "C2" then SendOutcome.err else SendOutcome.delivered) []
    (by decide)).trans rfl

lemma three_way_count (l : List String) (p q : String → Bool) :
    (l.filter (fun c => !(p c) && q c)).length
      + (l.filter (fun c => !(p c) && !(q c))).length
      + (l.filter p).length = l.length := by
  induction l with
  | nil => rfl
  | cons c l ih =>
    by_cases hp : p c = true
    · simp only [List.filter_cons, hp, Bool.not_true, Bool.false_and,
        Bool.false_eq_true, if_false, if_true, List.length_cons]
      omega
    · have hp' : p c = false := Bool.eq_false_iff.mpr hp
      by_cases hq : q c = true
      · simp only [List.filter_cons, hp', Bool.not_false, Bool.true_and, hq,
          Bool.not_true, Bool.false_eq_true, if_false, if_true,
          List.length_cons]
        omega
      · have hq' : q c = false := Bool.eq_false_iff.mpr hq
        simp only [List.filter_cons, hp', Bool.not_false, Bool.true_and, hq',
          Bool.false_eq_true, if_false, Bool.not_false, if_true,
          List.length_cons]
        omega

/-- **C10 — counterexample.** With a successful scan, the source can still
return no statistics at all: the second connection's `GoneException` cleanup
failure escapes `send_message`, the loop aborts, and `broadcast_message`
re-raises — although the first connection was scanned, non-excluded and
successfully delivered, no `sent`/`failed` accounting of it ever reaches the
caller, contradicting the claim's universal accounting. -/
theorem broadcast_no_stats_on_cleanup_failure_cex :
    broadcastMessage (Except.ok ["D1", "D2"])
        (fun c => if c == "D2" then SendOutcome.goneCleanupFail "boom"
          else SendOutcome.delivered) [] = Except.error "boom"
    ∧ deliverySucceeds
        (fun c => if c == "D2" then SendOutcome.goneCleanupFail "boom"
          else SendOutcome.delivered) "D1" = true :=
  ⟨rfl, rfl⟩

/-- **C10 — amended.** When the connection scan succeeds *and* no
non-excluded scanned connection hits a gone-connection cleanup failure, the
returned stats satisfy: `total` is the number of scanned connections, every
non-excluded connection is counted in exactly one of `sent`/`failed` (so
`sent + failed` plus the number of connections actually skipped equals
`total`, and `sent + failed = total` when the exclude list is empty), and
`excluded` is the length of the caller's exclude list (not the number of
connections actually skipped). If a cleanup failure occurs, the call
re-raises mid-loop and returns no statistics (see the counterexample). -/
theorem broadcast_stats_accounting_amended (conns : List String)
    (outcome : String → SendOutcome) (exclude : List String)
    (hsafe : ∀ c ∈ conns, exclude.contains c = false →
      cleanupFails (outcome c) = false) :
    ∃ stats : BroadcastStats,
      broadcastMessage (Except.ok conns) outcome exclude = Except.ok stats
      ∧ stats.total = conns.length
      ∧ stats.excluded = exclude.length
      ∧ stats.sent + stats.failed
          + (conns.filter (fun c => exclude.contains c)).length = conns.length
      ∧ (exclude = [] → stats.sent + stats.failed = stats.total) := by
  refine ⟨_, broadcastMessage_ok_of_safe conns outcome exclude hsafe, rfl, rfl,
    ?_, ?_⟩
  · exact three_way_count conns (fun c => exclude.contains c)
      (fun c => deliverySucceeds outcome c)
  · intro hex
    subst hex
    have h3 := three_way_count conns (fun c => List.contains ([] : List String) c)
      (fun c => deliverySucceeds outcome c)
    have hnil : (conns.filter
        (fun c => List.contains ([] : List String) c)).length = 0 := by
      simp
    show (conns.filter
          (fun c => !(List.contains ([] : List String) c)
            && deliverySucceeds outcome c)).length
        + (conns.filter
          (fun c => !(List.contains ([] : List String) c)
            && !(deliverySucceeds outcome c))).length
        = conns.length
    omega

/-- **C10 — witness** for `broadcast_stats_accounting_amended`: two scanned
connections, one failing delivery with a caught error, and an exclude list
naming an absent connection — `excluded` reports 1 although nothing was
actually skipped. -/
theorem broadcast_stats_accounting_amended_witness :
    ∃ stats : BroadcastStats,
      broadcastMessage (Except.ok ["C1", "C2"])
          (fun c => if c == "C2" then SendOutcome.err else SendOutcome.delivered)
          ["ZZ"] = Except.ok stats
      ∧ stats.total = (["C1", "C2"] : List String).length
      ∧ stats.excluded = (["ZZ"] : List String).length
      ∧ stats.sent + stats.failed
          + ((["C1", "C2"] : List String).filter
              (fun c => List.contains ["ZZ"] c)).length
          = (["C1", "C2"] : List String).length
      ∧ ((["ZZ"] : List String) = [] → stats.sent + stats.failed = stats.total) :=
  broadcast_stats_accounting_amended ["C1", "C2"]
    (fun c => if c == "C2" then SendOutcome.err else SendOutcome.delivered)
    ["ZZ"] (by decide)

/-- A monitoring queue with five tier-1 entries at 100, 90, 80, 70 and 60
hours since test, used to exercise the batch claimer. -/
def sampleQueue : List MonitoringEntry :=
  [{ patient_id := "P1", admission_id := "A1", hours_since_test := some 100,
     last_checked := 0 },
   { patient_id := "P2", admission_id := "A2", hours_since_test := some 90,
     last_checked := 0 },
   { patient_id := "P3", admission_id := "A3", hours_since_test := some 80,
     last_checked := 0 },
   { patient_id := "P4", admission_id := "A4", hours_since_test := some 70,
     last_checked := 0 },
   { patient_id := "P5", admission_id := "A5", hours_since_test := some 60,
     last_checked := 0 }]

/-- **C5 — counterexample.** `process_monitoring_batch` marks claimed rows by
setting `last_checked`, but its selection never filters on `last_checked` —
only row locks held by a still-open transaction are skipped. So a second
`claimBatch(2)` issued *after* the first call's transaction has committed
(locks released, `locked = []`) returns the *same* two most-overdue entries
again, not the next 2 different entries as the claim states. -/
theorem claim_batch_second_call_cex :
    (processMonitoringBatch (processMonitoringBatch sampleQueue [] 2 1).2 [] 2 2).1.map
        MonitoringEntry.patient_id
      = (processMonitoringBatch sampleQueue [] 2 1).1.map MonitoringEntry.patient_id
    ∧ (processMonitoringBatch sampleQueue [] 2 1).1.map MonitoringEntry.patient_id
      = ["P1", "P2"] := by
  constructor
  · rfl
  · rfl

/-- **C5 — amended.** `claimBatch(maxSize)` returns at most `maxSize` entries,
all with priority tier 1, ordered by `hoursSinceTest` descending, and sets
each returned entry's `lastChecked` to the claim time in the same atomic
statement that selects it. On an index with 5 tier-1 entries, `claimBatch(2)`
returns the 2 most-overdue entries, and a second `claimBatch(2)` issued while
the first call's transaction still holds its row locks (SKIP LOCKED) returns
the next 2 different entries; once those locks are released, a later call
re-returns the same entries (see the counterexample). -/
theorem claim_batch_spec (q : List MonitoringEntry)
    (locked : List (String × String)) (n : ℕ) (now : Timestamp) :
    (processMonitoringBatch q locked n now).1.length ≤ n
    ∧ (∀ e ∈ (processMonitoringBatch q locked n now).1,
        priorityOf e.hours_since_test = 1)
    ∧ List.Sorted entryGE (processMonitoringBatch q locked n now).1
    ∧ (∀ e ∈ (processMonitoringBatch q locked n now).1,
        ∃ x ∈ (processMonitoringBatch q locked n now).2,
          sameKey x e.patient_id e.admission_id = true ∧ x.last_checked = now)
    ∧ (processMonitoringBatch sampleQueue [] 2 1).1.map
        MonitoringEntry.patient_id = ["P1", "P2"]
    ∧ (processMonitoringBatch (processMonitoringBatch sampleQueue [] 2 1).2
        [("P1", "A1"), ("P2", "A2")] 2 2).1.map
        MonitoringEntry.patient_id = ["P3", "P4"] := by
  refine ⟨?_, ?_, ?_, ?_, rfl, rfl⟩
  · exact List.length_take_le n _
  · intro e he
    have hmem : e ∈ List.insertionSort entryGE
        (q.filter (fun x => priorityOf x.hours_since_test == 1
          && !(locked.contains (x.patient_id, x.admission_id)))) :=
      List.mem_of_mem_take he
    have hmem2 := (List.perm_insertionSort entryGE _).mem_iff.mp hmem
    have hcond := List.of_mem_filter hmem2
    rw [Bool.and_eq_true] at hcond
    exact beq_iff_eq.mp hcond.1
  · exact List.Pairwise.sublist (List.take_sublist n _)
      (List.sorted_insertionSort entryGE _)
  · intro e he
    have hmem : e ∈ List.insertionSort entryGE
        (q.filter (fun x => priorityOf x.hours_since_test == 1
          && !(locked.contains (x.patient_id, x.admission_id)))) :=
      List.mem_of_mem_take he
    have hq : e ∈ q :=
      List.mem_of_mem_filter ((List.perm_insertionSort entryGE _).mem_iff.mp hmem)
    have hself : sameKey e e.patient_id e.admission_id = true := by
      simp [sameKey]
    have hany : ((selectBatch q locked n).any
        (fun b => sameKey e b.patient_id b.admission_id)) = true :=
      List.any_eq_true.mpr ⟨e, he, hself⟩
    have hmm := List.mem_map_of_mem
      (fun x => if (selectBatch q locked n).any
          (fun b => sameKey x b.patient_id b.admission_id)
        then { x with last_checked := now } else x) hq
    simp only [hany, eq_self_iff_true, if_true] at hmm
    exact ⟨{ e with last_checked := now }, hmm, hself, rfl⟩

/-- **C5 — witness** for `claim_batch_spec` on the five-entry sample queue
with batch size 2 at claim time 1. -/
theorem claim_batch_spec_witness :
    (processMonitoringBatch sampleQueue [] 2 1).1.length ≤ 2
    ∧ (∀ e ∈ (processMonitoringBatch sampleQueue [] 2 1).1,
        priorityOf e.hours_since_test = 1)
    ∧ List.Sorted entryGE (processMonitoringBatch sampleQueue [] 2 1).1
    ∧ (∀ e ∈ (processMonitoringBatch sampleQueue [] 2 1).1,
        ∃ x ∈ (processMonitoringBatch sampleQueue [] 2 1).2,
          sameKey x e.patient_id e.admission_id = true ∧ x.last_checked = 1)
    ∧ (processMonitoringBatch sampleQueue [] 2 1).1.map
        MonitoringEntry.patient_id = ["P1", "P2"]
    ∧ (processMonitoringBatch (processMonitoringBatch sampleQueue [] 2 1).2
        [("P1", "A1"), ("P2", "A2")] 2 2).1.map
        MonitoringEntry.patient_id = ["P3", "P4"] :=
  claim_batch_spec sampleQueue [] 2 1

end DataIntegrator
